import Mathlib

/-!
Verification of the hft-flash trading bot (src/app.js and
src/app_multiuser_highres.js) against its natural-language specification.

The JavaScript sources are shallowly embedded: pure computations become Lean
functions, stateful code becomes explicit state passing, network and clock
effects become explicit parameters (the observed outcome of each `axios` call,
the observed time of each poll), and JavaScript exceptions become
`Except String`.
-/

namespace HftFlash

/-! ## Data model -/

/-- Severity of a log line.  In src/app_multiuser_highres.js the logger
(`createLogger`, lines 11-17) exposes `info` (cyan), `success` (green) and
`error` (red). -/
inductive LogLevel
  | info
  | success
  | error
deriving Repr, DecidableEq

/-- One in-memory log entry as pushed by `logMessage`
(src/app_multiuser_highres.js lines 19-24): severity plus message text
(timestamp/user-key formatting elided into the message). -/
structure LogEntry where
  level : LogLevel
  msg : String
deriving Repr, DecidableEq

/-- Mutable state of the trading loop inside `runUser`
(src/app_multiuser_highres.js lines 120-149): the `isTradingActive` flag
(line 121), a count of order-submission network calls made by `sendOrder`
(line 74, the `axios.post` to `ORDER_URL`), and the in-memory log. -/
structure TradeState where
  isTradingActive : Bool
  orderCalls : Nat
  logs : List LogEntry
deriving Repr, DecidableEq

/-! ## Order submission and the trading tick (src/app_multiuser_highres.js) -/

/-- `sendOrder` (src/app_multiuser_highres.js lines 72-88): performs one
order POST; on failure rethrows with the message wrapped as
`Order failed: ...`.  The outcome of the POST itself (the network being an
external collaborator) is the `postResult` parameter. -/
def sendOrder (postResult : Except String String) : Except String String :=
  match postResult with
  | .ok respData => .ok respData
  | .error cause => .error ("Order failed: " ++ cause)

/-- `executeTrade` (src/app_multiuser_highres.js lines 122-137): one Trading
tick.  Reads the current instant `now` (epoch milliseconds, line 123); if
`now >= stopTime` it sets `isTradingActive = false` and returns `false`
without calling `sendOrder`; otherwise it calls `sendOrder`, logging success
or error, and never deactivates trading.  `post` is the observed outcome of
the order POST for this tick.  Returns the updated state and the tick's
boolean result. -/
def executeTrade (stopTime now : Nat) (post : Except String String)
    (st : TradeState) : TradeState × Bool :=
  if stopTime ≤ now then
    ({ st with isTradingActive := false }, false)
  else
    match sendOrder post with
    | .ok respData =>
        ({ st with
            orderCalls := st.orderCalls + 1,
            logs := st.logs ++
              [⟨.success, "Order executed at " ++ toString now ++ " | " ++ respData⟩] },
          true)
    | .error emsg =>
        ({ st with
            orderCalls := st.orderCalls + 1,
            logs := st.logs ++ [⟨.error, "Order error: " ++ emsg⟩] },
          false)

/-- One later tick as seen by the `setInterval` callback: the instant the
tick observes and the outcome the order POST would have on that tick. -/
structure TickObs where
  now : Nat
  post : Except String String
deriving Repr

/-- The `setInterval` callback loop (src/app_multiuser_highres.js lines
143-149): each firing first checks `isTradingActive`; once it is `false` it
clears the interval, so no further tick runs `executeTrade`. -/
def intervalLoop (stopTime : Nat) : List TickObs → TradeState → TradeState
  | [], st => st
  | o :: rest, st =>
      if st.isTradingActive then
        intervalLoop stopTime rest (executeTrade stopTime o.now o.post st).1
      else st

/-! ## Configuration and the per-account session (src/app_multiuser_highres.js) -/

/-- One account's configuration object as read from `users.json`
(src/app_multiuser_highres.js).  A field is `none` when the key is absent
from the object (`!(field in config)`, line 43).  Numeric fields carry the
value `Number(...)` yields on them (lines 46-47, 50, 54); string-valued
fields are elided to presence plus an opaque value since `validateConfig`
only tests presence on them. -/
structure Config where
  USER_NAME : Option String
  PASS_WORD : Option String
  REQUEST_INTERVAL : Option Nat
  ISIN : Option String
  QUANTITY : Option Int
  PRICE : Option Int
  ORDER_SIDE : Option Int
  ORDER_START_TIME : Option String
  ORDER_STOP_TIME : Option String
  LOGIN_URL : Option String
  ORDER_URL : Option String
  MAX_QUANTITY : Option Int
  MIN_TOTAL_COST : Option Int
deriving Repr, DecidableEq

/-- `validateConfig` (src/app_multiuser_highres.js lines 34-57): throws
`Missing <field>` at the first absent required field (in the order of the
`requiredFields` array, lines 35-40), then throws if
`quantity > MAX_QUANTITY` (line 50) and then if
`quantity * price < MIN_TOTAL_COST` (line 54); otherwise returns. -/
def validateConfig (c : Config) : Except String Unit :=
  if c.USER_NAME.isNone then .error "Missing USER_NAME"
  else if c.PASS_WORD.isNone then .error "Missing PASS_WORD"
  else if c.REQUEST_INTERVAL.isNone then .error "Missing REQUEST_INTERVAL"
  else if c.ISIN.isNone then .error "Missing ISIN"
  else if c.QUANTITY.isNone then .error "Missing QUANTITY"
  else if c.PRICE.isNone then .error "Missing PRICE"
  else if c.ORDER_SIDE.isNone then .error "Missing ORDER_SIDE"
  else if c.ORDER_START_TIME.isNone then .error "Missing ORDER_START_TIME"
  else if c.ORDER_STOP_TIME.isNone then .error "Missing ORDER_STOP_TIME"
  else if c.LOGIN_URL.isNone then .error "Missing LOGIN_URL"
  else if c.ORDER_URL.isNone then .error "Missing ORDER_URL"
  else if c.MAX_QUANTITY.isNone then .error "Missing MAX_QUANTITY"
  else if c.MIN_TOTAL_COST.isNone then .error "Missing MIN_TOTAL_COST"
  else
    let quantity := c.QUANTITY.getD 0
    let price := c.PRICE.getD 0
    let totalCost := quantity * price
    if quantity > c.MAX_QUANTITY.getD 0 then .error "Quantity exceeds maximum allowed"
    else if totalCost < c.MIN_TOTAL_COST.getD 0 then .error "Total cost below minimum required"
    else .ok ()

/-- All thirteen required fields are present in the config object. -/
def requiredPresent (c : Config) : Bool :=
  c.USER_NAME.isSome && c.PASS_WORD.isSome && c.REQUEST_INTERVAL.isSome &&
  c.ISIN.isSome && c.QUANTITY.isSome && c.PRICE.isSome && c.ORDER_SIDE.isSome &&
  c.ORDER_START_TIME.isSome && c.ORDER_STOP_TIME.isSome && c.LOGIN_URL.isSome &&
  c.ORDER_URL.isSome && c.MAX_QUANTITY.isSome && c.MIN_TOTAL_COST.isSome

/-- Everything `runUser` consumes from the outside world, alongside its
config: the observed outcome of the login POST (`getAuthToken`, lines
60-70), the stop instant resolved by `parseTime(config.ORDER_STOP_TIME)`
(line 106), and the observations of the immediate first tick (line 140)
and of the later interval ticks (lines 143-149). -/
structure Account where
  cfg : Config
  loginResult : Except String String
  stopTime : Nat
  firstTick : TickObs
  laterTicks : List TickObs

/-- Outcome of one account's `runUser` promise: how many login and order
POSTs it issued, its log, whether its promise resolved (it never rejects:
both the success path's stop timer, line 157, and the catch block, line
162, call `resolve`), and whether it ended in the fatal-error path. -/
structure RunResult where
  loginCalls : Nat
  orderCalls : Nat
  logs : List LogEntry
  resolved : Bool
  fatal : Bool
deriving Repr, DecidableEq

/-- `runUser` (src/app_multiuser_highres.js lines 92-165), as the trace of
one account's session: validate, then one login POST via `getAuthToken`
(which wraps any failure as `Authentication failed: ...`, line 68), then
the trading phase — the immediate `executeTrade` (line 140) followed by the
interval ticks — ending with the stop timer's log and `resolve`.  Any
thrown setup error is caught at line 160, logged as
`Fatal error: ...` and resolved. -/
def runUser (a : Account) : RunResult :=
  match validateConfig a.cfg with
  | .error e =>
      { loginCalls := 0, orderCalls := 0,
        logs := [⟨.info, "Initializing trader"⟩, ⟨.error, "Fatal error: " ++ e⟩],
        resolved := true, fatal := true }
  | .ok _ =>
      match a.loginResult with
      | .error cause =>
          { loginCalls := 1, orderCalls := 0,
            logs := [⟨.info, "Initializing trader"⟩,
                     ⟨.error, "Fatal error: Authentication failed: " ++ cause⟩],
            resolved := true, fatal := true }
      | .ok _token =>
          let st0 : TradeState :=
            { isTradingActive := true, orderCalls := 0,
              logs := [⟨.info, "Initializing trader"⟩,
                       ⟨.success, "Authentication successful"⟩] }
          let st1 := (executeTrade a.stopTime a.firstTick.now a.firstTick.post st0).1
          let stF := intervalLoop a.stopTime a.laterTicks st1
          { loginCalls := 1, orderCalls := stF.orderCalls,
            logs := stF.logs ++ [⟨.info, "Trading period ended"⟩],
            resolved := true, fatal := false }

/-- `run` (src/app_multiuser_highres.js lines 180-186): maps `runUser` over
the account entries and joins them all with `Promise.all`. -/
def runAll (accounts : List Account) : List RunResult :=
  accounts.map runUser

/-- A concrete, fully populated, valid configuration (quantity 10, price
500, max quantity 100, min total cost 1000) used to evaluate the theorems
on explicit inputs. -/
def sampleConfig : Config :=
  ⟨some "u", some "p", some 100, some "IRO1", some 10, some 500, some 1,
   some "10.00.00.000", some "10.00.05.000", some "L", some "O", some 100, some 1000⟩

/-- A concrete fully populated configuration violating the quantity bound:
quantity 200 exceeds max quantity 100. -/
def badConfig : Config :=
  ⟨some "u", some "p", some 100, some "IRO1", some 200, some 500, some 1,
   some "10.00.00.000", some "10.00.05.000", some "L", some "O", some 100, some 1000⟩

/-! ## The busy-wait for the start instant (src/app_multiuser_highres.js) -/

/-- The busy-wait loop of `runUser` (src/app_multiuser_highres.js lines
111-118): `while (now < startTime) await sleep(delay)`.  `clock k` is the
time observed at the k-th iteration of the loop; the loop exits at the
first iteration observing `now >= startTime` and returns that iteration's
index.  `fuel` bounds the number of iterations (modelling that the clock
eventually reaches the start instant); `none` means the fuel ran out while
still before the start instant. -/
def waitLoop (start : Nat) (clock : Nat → Nat) : Nat → Nat → Option Nat
  | 0, _ => none
  | fuel + 1, k => if clock k < start then waitLoop start clock fuel (k + 1) else some k

/-- The instant of the n-th execution attempt of the trading phase
(src/app_multiuser_highres.js lines 139-149): the first attempt runs
immediately at the transition instant `t0` (`await executeTrade()`, line
140, no initial delay), and the `setInterval` timer armed at line 143
fires every `interval` milliseconds thereafter. -/
def tickInstant (t0 interval n : Nat) : Nat := t0 + n * interval

/-- A concrete clock for evaluating the wait-loop theorems: one millisecond
per poll starting at 999. -/
def sampleClock : Nat → Nat := fun j => 999 + j

/-! ## Time-of-day parsing (src/app.js) -/

/-- The longest leading run of decimal digit characters of a string's
character list. -/
def leadingDigits : List Char → List Char
  | [] => []
  | c :: cs => if c.isDigit then c :: leadingDigits cs else []

/-- Numeric value of a list of decimal digit characters. -/
def digitsToNat (ds : List Char) : Nat :=
  ds.foldl (fun a c => a * 10 + (c.toNat - 48)) 0

/-- JavaScript `parseInt(s)` (radix 10) on the strings that arise here: an
optional single sign followed by the longest leading digit run; `none`
models the `NaN` result when no leading digit exists.  (Leading-whitespace
stripping and radix prefixes are omitted: the inputs are 2-3 character
substrings of a zero-padded spec string.) -/
def jsParseInt (s : String) : Option Int :=
  match s.data with
  | '-' :: rest =>
      let ds := leadingDigits rest
      if ds.isEmpty then none else some (-(digitsToNat ds : Int))
  | '+' :: rest =>
      let ds := leadingDigits rest
      if ds.isEmpty then none else some ((digitsToNat ds : Int))
  | l =>
      let ds := leadingDigits l
      if ds.isEmpty then none else some ((digitsToNat ds : Int))

/-- JavaScript `String.prototype.padStart(9, '0')`: left-pad with `'0'` up
to length 9 (strings already of length >= 9 are unchanged). -/
def padStart9 (s : String) : String :=
  if 9 ≤ s.length then s else ⟨List.replicate (9 - s.length) '0' ++ s.data⟩

/-- JavaScript `String.prototype.substring(a, b)` for `a <= b`: the
characters at indices `[a, b)`, clamped to the string's length. -/
def jsSubstring (s : String) (a b : Nat) : String :=
  ⟨(s.data.drop a).take (b - a)⟩

/-- The record returned by `parseTimeNumber` (src/app.js lines 61-69):
four fields produced by `parseInt` on fixed substrings; a field is `none`
when `parseInt` returned `NaN`. -/
structure TimeFieldsJS where
  hours : Option Int
  minutes : Option Int
  seconds : Option Int
  ms : Option Int
deriving Repr, DecidableEq

/-- `parseTimeNumber` (src/app.js lines 61-69): pad the spec string to 9
characters with leading zeros and `parseInt` the four fixed-width
substrings.  No field is range-checked and nothing is rejected. -/
def parseTimeNumber (timeStr : String) : TimeFieldsJS :=
  let padded := padStart9 timeStr
  { hours := jsParseInt (jsSubstring padded 0 2)
    minutes := jsParseInt (jsSubstring padded 2 4)
    seconds := jsParseInt (jsSubstring padded 4 6)
    ms := jsParseInt (jsSubstring padded 6 9) }

/-- `parseTimeNumber` with JavaScript exception semantics made explicit:
none of `String(..)`, `padStart`, `substring` or `parseInt` can throw, so
the call always returns normally with the decomposed record. -/
def parseTimeNumberE (timeStr : String) : Except String TimeFieldsJS :=
  .ok (parseTimeNumber timeStr)

/-- A two-digit decimal rendering of `h < 100` followed by seven `'0'`
characters: the 9-character spec string with hour field `h` and zero
minutes, seconds and milliseconds. -/
def hourSpecString (h : Nat) : String :=
  ⟨Nat.digitChar (h / 10) :: Nat.digitChar (h % 10) :: List.replicate 7 '0'⟩

/-! ## Log storage and flush (src/app.js) -/

/-- State of the app.js log subsystem: the in-memory `logs` array (line 23)
and the sequence of physical writes performed so far on persistent storage,
each a (filename, blob) pair produced by `fs.writeFileSync`. -/
structure FlushState where
  logs : List String
  writes : List (String × String)
deriving Repr, DecidableEq

/-- `saveLogs` (src/app.js lines 181-188): unconditionally writes the
newline-joined log blob to `logs/orders_<Date.now()>.log` via
`fs.writeFileSync`, then appends one more info log line.  `t` is the value
`Date.now()` returns at this call.  There is no guard of any kind: every
call performs a physical write. -/
def saveLogs (t : Nat) (st : FlushState) : FlushState :=
  let logFile := "logs/orders_" ++ toString t ++ ".log"
  let st1 := { st with writes := st.writes ++ [(logFile, String.intercalate "\n" st.logs)] }
  { st1 with logs := st1.logs ++ ["[INFO] Logs saved to " ++ logFile] }

/-- The operations of the program that touch the in-memory log: `record`
is `log` (src/app.js lines 24-34) / `logMessage`
(src/app_multiuser_highres.js lines 19-24), which push exactly one
formatted line; `flush` is `saveLogs` (src/app.js lines 181-188). -/
inductive LogOp
  | record (line : String)
  | flush (t : Nat)
deriving Repr, DecidableEq

/-- Effect of each log-touching operation on the log state. -/
def applyLogOp : LogOp → FlushState → FlushState
  | .record line, st => { st with logs := st.logs ++ [line] }
  | .flush t, st => saveLogs t st

/-! ## app.js order tick (src/app.js lines 152-178) -/

/-- Mutable state of the app.js order loop (src/app.js lines 152-178):
`orderCounter` (line 153), the log (line 23) and the count of order POSTs
performed. -/
structure AppJsState where
  orderCounter : Nat
  logs : List String
  orderCalls : Nat
deriving Repr, DecidableEq

/-- `sendOrder` (src/app.js lines 155-178): increments `orderCounter`,
performs the order POST, and on success logs two info lines.  On failure
the `catch` block (line 176) evaluates a template literal referencing
`orderNumber` — but `orderNumber` is a `const` declared inside the `try`
block (line 158) and is not in scope in the `catch` block, so the catch
itself raises `ReferenceError: orderNumber is not defined` before `log` is
called: no error entry is appended and the exception escapes the tick.
`post` is the observed outcome of the order POST. -/
def sendOrderAppJs (post : Except String String) (st : AppJsState) :
    AppJsState × Except String Unit :=
  let counter := st.orderCounter + 1
  let orderNumber := toString counter
  let st1 := { st with orderCounter := counter, orderCalls := st.orderCalls + 1 }
  match post with
  | .ok respData =>
      ({ st1 with logs := st1.logs ++
          ["[INFO] Order #" ++ orderNumber ++ " sent",
           "[INFO] Broker response for Order #" ++ orderNumber ++ ": " ++ respData] },
        .ok ())
  | .error _ =>
      (st1, .error "ReferenceError: orderNumber is not defined")

/-! ## The app.js market checker (src/app.js lines 110-150) -/

/-- The `{hours, minutes, seconds, ms}` record used by `runApp`: the shape
returned by `parseTimeNumber` (for valid numeric specs) and by
`getCurrentMarketTime` (src/app.js lines 71-89). -/
structure TimeOfDay where
  hours : Nat
  minutes : Nat
  seconds : Nat
  ms : Nat
deriving Repr, DecidableEq

/-- The totals compared by `marketChecker` (src/app.js lines 133-135):
`hours * 3600 + minutes * 60 + seconds` — the `ms` field is never read. -/
def secondsTotal (t : TimeOfDay) : Nat :=
  t.hours * 3600 + t.minutes * 60 + t.seconds

/-- One invocation of the `marketChecker` callback body (src/app.js lines
129-150) given the current market time, the parsed start/stop times, and
whether `orderInterval` is already set.  Returns (the start decision —
whether this invocation starts the order sequence, line 138 — and the stop
decision — whether this invocation stops it and exits, line 144; the stop
check sees `orderInterval` as set when this same invocation just set it). -/
def marketCheckerStep (startT stopT current : TimeOfDay)
    (orderIntervalSet : Bool) : Bool × Bool :=
  let currentTotal := secondsTotal current
  let startTotal := secondsTotal startT
  let stopTotal := secondsTotal stopT
  let startsOrders := !orderIntervalSet && decide (startTotal ≤ currentTotal)
  let intervalNow := orderIntervalSet || startsOrders
  let stopsOrders := intervalNow && decide (stopTotal ≤ currentTotal)
  (startsOrders, stopsOrders)

/-! # Theorems -/

/-- C1: During Trading, a tick observing `now >= stopTime` submits no order
(the order-call count is unchanged) and deactivates trading — the session's
Stopped condition, after which the interval callback clears the interval and
no further tick executes — while a tick observing `now < stopTime` submits
exactly one order and leaves the trading flag as it was: the window is
inclusive-exclusive with the boundary at exactly the stop instant closed. -/
theorem C1_stop_boundary (stopTime now : Nat) (post : Except String String)
    (st : TradeState) (rest : List TickObs) :
    (stopTime ≤ now →
      (executeTrade stopTime now post st).1.orderCalls = st.orderCalls ∧
      (executeTrade stopTime now post st).1.isTradingActive = false ∧
      intervalLoop stopTime rest (executeTrade stopTime now post st).1 =
        (executeTrade stopTime now post st).1) ∧
    (now < stopTime →
      (executeTrade stopTime now post st).1.orderCalls = st.orderCalls + 1 ∧
      (executeTrade stopTime now post st).1.isTradingActive = st.isTradingActive) := by
  constructor
  · intro h
    have hx : executeTrade stopTime now post st =
        ({ st with isTradingActive := false }, false) := by
      simp [executeTrade, h]
    refine ⟨by simp [hx], by simp [hx], ?_⟩
    cases rest with
    | nil => simp [intervalLoop]
    | cons o os => simp [intervalLoop, hx]
  · intro h
    have hn : ¬ stopTime ≤ now := by omega
    cases post with
    | ok r => simp [executeTrade, sendOrder, hn]
    | error e => simp [executeTrade, sendOrder, hn]

/-- Witness for C1 at the spec's example instants: stop = 10:00:05.000
(36005000 ms of day).  A tick at exactly 36005000 submits nothing and
deactivates trading; a tick at 36004999 submits one order. -/
theorem C1_stop_boundary_witness :
    (executeTrade 36005000 36005000 (.ok "r") ⟨true, 0, []⟩).1.orderCalls = 0 ∧
    (executeTrade 36005000 36005000 (.ok "r") ⟨true, 0, []⟩).1.isTradingActive = false ∧
    (executeTrade 36005000 36004999 (.ok "r") ⟨true, 0, []⟩).1.orderCalls = 1 := by
  have h1 := (C1_stop_boundary 36005000 36005000 (.ok "r") ⟨true, 0, []⟩ []).1
    (by omega)
  have h2 := (C1_stop_boundary 36005000 36004999 (.ok "r") ⟨true, 0, []⟩ []).2
    (by omega)
  exact ⟨h1.1, h1.2.1, h2.1⟩

/-- C2 counterexample: calling `saveLogs` twice within one run (same
`Date.now()` value, as when two exit paths race) performs two physical
writes, not one — there is no one-shot guard in the code, so the second
call is not a no-op. -/
theorem C2_counterexample :
    ((saveLogs 1700000000000
        (saveLogs 1700000000000 ⟨["[INFO] Application started"], []⟩)).writes).length = 2 := by
  decide

/-- C2 (amended): every call to `saveLogs` unconditionally performs exactly
one physical write of the current newline-joined log blob, so calling it
twice within one run performs two writes; at most one write per run holds
in the source only because every call site exits the process immediately
afterwards, not because of a guard. -/
theorem C2_flush_writes (t1 t2 : Nat) (st : FlushState) :
    (∀ t s, (saveLogs t s).writes =
      s.writes ++ [("logs/orders_" ++ toString t ++ ".log", String.intercalate "\n" s.logs)]) ∧
    (saveLogs t2 (saveLogs t1 st)).writes.length = st.writes.length + 2 := by
  refine ⟨fun t s => by simp [saveLogs], ?_⟩
  simp [saveLogs]

/-- C3 counterexample: the out-of-range hour field "25" (input
"250000000", hour not in 0-23) does not make `parseTimeNumber` fail: the
call returns normally with the decomposed record, hour 25 included — there
is no `InvalidTimeFormat` rejection anywhere in the parsing code. -/
theorem C3_counterexample :
    parseTimeNumber "250000000" = ⟨some 25, some 0, some 0, some 0⟩ ∧
    (parseTimeNumberE "250000000").isOk = true := by
  exact ⟨by decide, rfl⟩

/-- C3 (amended): the time-parsing operation performs no range validation
and never fails: every input string returns a decomposed record (fields are
`NaN` when a substring has no digits), and every two-digit hour value
0-99 — including every out-of-range hour 24-99 — parses successfully into
exactly that hour field. -/
theorem C3_no_validation :
    (∀ s e, parseTimeNumberE s ≠ .error e) ∧
    (∀ h, h < 100 →
      parseTimeNumber (hourSpecString h) = ⟨some h, some 0, some 0, some 0⟩) := by
  constructor
  · intro s e hc
    simp [parseTimeNumberE] at hc
  · decide

/-- Witness for C3 (amended) at hour 25: the out-of-range hour parses
successfully with its field preserved. -/
theorem C3_no_validation_witness :
    parseTimeNumber (hourSpecString 25) = ⟨some 25, some 0, some 0, some 0⟩ :=
  C3_no_validation.2 25 (by omega)

/-- C4 (code bug, evaluated at the failing input): on the first tick whose
order POST fails (here with cause "timeout"), app.js's `sendOrder` appends
no error-level log entry and the tick escapes with a `ReferenceError`
instead of recovering — contradicting the failure policy that every order
failure is caught, logged as `error`, and contained within the tick. -/
theorem C4_appjs_catch_bug :
    (sendOrderAppJs (.error "timeout") ⟨0, [], 0⟩).2 =
      .error "ReferenceError: orderNumber is not defined" ∧
    (sendOrderAppJs (.error "timeout") ⟨0, [], 0⟩).1.logs = [] := by
  constructor <;> rfl

/-- C5: with all thirteen required fields present, `validateConfig` accepts
exactly when `quantity * price >= MIN_TOTAL_COST` and
`quantity <= MAX_QUANTITY` (rejecting every violating combination with an
error), and a rejected configuration causes zero login and zero order
network calls in that account's session. -/
theorem C5_validator_gate (c : Config) (h : requiredPresent c = true) :
    (validateConfig c = .ok () ↔
      c.MIN_TOTAL_COST.getD 0 ≤ c.QUANTITY.getD 0 * c.PRICE.getD 0 ∧
      c.QUANTITY.getD 0 ≤ c.MAX_QUANTITY.getD 0) ∧
    (validateConfig c ≠ .ok () →
      ∀ loginR stopT f later,
        (runUser ⟨c, loginR, stopT, f, later⟩).loginCalls = 0 ∧
        (runUser ⟨c, loginR, stopT, f, later⟩).orderCalls = 0) := by
  constructor
  · simp only [requiredPresent, Bool.and_eq_true, and_assoc] at h
    obtain ⟨h1, h2, h3, h4, h5, h6, h7, h8, h9, h10, h11, h12, h13⟩ := h
    obtain ⟨v1, e1⟩ := Option.isSome_iff_exists.mp h1
    obtain ⟨v2, e2⟩ := Option.isSome_iff_exists.mp h2
    obtain ⟨v3, e3⟩ := Option.isSome_iff_exists.mp h3
    obtain ⟨v4, e4⟩ := Option.isSome_iff_exists.mp h4
    obtain ⟨v5, e5⟩ := Option.isSome_iff_exists.mp h5
    obtain ⟨v6, e6⟩ := Option.isSome_iff_exists.mp h6
    obtain ⟨v7, e7⟩ := Option.isSome_iff_exists.mp h7
    obtain ⟨v8, e8⟩ := Option.isSome_iff_exists.mp h8
    obtain ⟨v9, e9⟩ := Option.isSome_iff_exists.mp h9
    obtain ⟨v10, e10⟩ := Option.isSome_iff_exists.mp h10
    obtain ⟨v11, e11⟩ := Option.isSome_iff_exists.mp h11
    obtain ⟨v12, e12⟩ := Option.isSome_iff_exists.mp h12
    obtain ⟨v13, e13⟩ := Option.isSome_iff_exists.mp h13
    simp only [validateConfig, e1, e2, e3, e4, e5, e6, e7, e8, e9, e10, e11, e12, e13,
      Option.isNone_some, Bool.false_eq_true, if_false, Option.getD_some]
    by_cases hq : v5 > v12
    · simp only [if_pos hq]
      simp only [reduceCtorEq, false_iff, not_and]
      intro _hP
      omega
    · by_cases htc : v5 * v6 < v13
      · simp only [if_neg hq, if_pos htc]
        simp only [reduceCtorEq, false_iff, not_and]
        intro hP
        omega
      · simp only [if_neg hq, if_neg htc]
        constructor
        · intro _hok
          exact ⟨by omega, by omega⟩
        · intro _hinv
          trivial
  · intro hne loginR stopT f later
    cases hv : validateConfig c with
    | ok u => exact absurd (by cases u; exact hv) hne
    | error e => simp [runUser, hv]

/-- Witness for C5 at `badConfig` (all fields present, quantity 200 > max
100): the validator rejects and the session issues zero login and zero
order calls. -/
theorem C5_validator_gate_witness :
    validateConfig badConfig ≠ .ok () ∧
    (runUser ⟨badConfig, .ok "tok", 36005000, ⟨36000000, .ok "resp"⟩, []⟩).loginCalls = 0 ∧
    (runUser ⟨badConfig, .ok "tok", 36005000, ⟨36000000, .ok "resp"⟩, []⟩).orderCalls = 0 := by
  have herr : validateConfig badConfig = .error "Quantity exceeds maximum allowed" := rfl
  have hne : validateConfig badConfig ≠ .ok () := by simp [herr]
  have h := (C5_validator_gate badConfig (by decide)).2 hne
    (.ok "tok") 36005000 ⟨36000000, .ok "resp"⟩ []
  exact ⟨hne, h.1, h.2⟩

/-- C6: the transition out of the busy-wait happens at the first poll
observing `now >= startInstant` (every earlier poll observed a strictly
earlier time), the first execution attempt occurs immediately at that
transition instant with no initial delay, and each subsequent attempt is
exactly `interval` milliseconds after the previous one. -/
theorem C6_immediate_then_cadence (start interval fuel i : Nat) (clock : Nat → Nat)
    (h : waitLoop start clock fuel 0 = some i) :
    start ≤ clock i ∧ (∀ j, j < i → clock j < start) ∧
    tickInstant (clock i) interval 0 = clock i ∧
    (∀ n, tickInstant (clock i) interval (n + 1) =
      tickInstant (clock i) interval n + interval) := by
  have key : ∀ fuel k j, waitLoop start clock fuel k = some j →
      start ≤ clock j ∧ k ≤ j ∧ ∀ m, k ≤ m → m < j → clock m < start := by
    intro fuel
    induction fuel with
    | zero => intro k j hj; simp [waitLoop] at hj
    | succ n ih =>
      intro k j hj
      by_cases hc : clock k < start
      · rw [waitLoop, if_pos hc] at hj
        obtain ⟨g1, g2, g3⟩ := ih (k + 1) j hj
        refine ⟨g1, by omega, ?_⟩
        intro m hkm hmj
        rcases Nat.eq_or_lt_of_le hkm with hm | hm
        · exact hm ▸ hc
        · exact g3 m hm hmj
      · rw [waitLoop, if_neg hc] at hj
        cases hj
        exact ⟨Nat.le_of_not_lt hc, Nat.le_refl k, by omega⟩
  obtain ⟨g1, -, g3⟩ := key fuel 0 i h
  refine ⟨g1, fun j hj => g3 j (Nat.zero_le j) hj, by simp [tickInstant], fun n => ?_⟩
  simp only [tickInstant]
  ring

/-- Witness for C6 with `sampleClock` (999, 1000, 1001, ...) and start
instant 1001: the loop exits at poll 2, whose observed time is the start
instant itself; attempt 0 is at that instant and attempt 1 is exactly 100
milliseconds later. -/
theorem C6_immediate_then_cadence_witness :
    1001 ≤ sampleClock 2 ∧
    tickInstant (sampleClock 2) 100 0 = sampleClock 2 ∧
    tickInstant (sampleClock 2) 100 1 = sampleClock 2 + 100 := by
  have h := C6_immediate_then_cadence 1001 100 10 2 sampleClock (by decide)
  refine ⟨h.1, h.2.2.1, ?_⟩
  have h1 := h.2.2.2 0
  rw [h.2.2.1] at h1
  exact h1

/-- C7: if the login call fails, the session makes exactly one login
attempt (no retry), never issues a single order request, and ends in the
fatal-error path — no order is ever submitted by a session that did not
obtain a bearer token. -/
theorem C7_login_failure_no_orders (a : Account) (cause : String)
    (hval : validateConfig a.cfg = .ok ())
    (hlogin : a.loginResult = .error cause) :
    (runUser a).loginCalls = 1 ∧ (runUser a).orderCalls = 0 ∧
    (runUser a).fatal = true := by
  simp [runUser, hval, hlogin]

/-- Witness for C7: a session with a valid configuration whose login POST
fails with "ECONNREFUSED" issues one login call, zero order calls, and
fails. -/
theorem C7_login_failure_no_orders_witness :
    (runUser ⟨sampleConfig, .error "ECONNREFUSED", 36005000, ⟨36000000, .ok "r"⟩, []⟩).loginCalls = 1 ∧
    (runUser ⟨sampleConfig, .error "ECONNREFUSED", 36005000, ⟨36000000, .ok "r"⟩, []⟩).orderCalls = 0 ∧
    (runUser ⟨sampleConfig, .error "ECONNREFUSED", 36005000, ⟨36000000, .ok "r"⟩, []⟩).fatal = true :=
  C7_login_failure_no_orders
    ⟨sampleConfig, .error "ECONNREFUSED", 36005000, ⟨36000000, .ok "r"⟩, []⟩
    "ECONNREFUSED" rfl rfl

/-- C8: every account's session runner resolves normally whatever its
outcome, and the orchestrator's join is the independent map of `runUser`
over the accounts: the result at any account's position is exactly that
account's own `runUser` result, unchanged by whatever the surrounding
accounts (which may all fail) do, and the join produces one result per
account. -/
theorem C8_session_isolation (pre post : List Account) (a : Account) :
    runAll (pre ++ a :: post) = runAll pre ++ runUser a :: runAll post ∧
    (runAll (pre ++ a :: post)).length = pre.length + 1 + post.length ∧
    (runUser a).resolved = true := by
  refine ⟨by simp [runAll], by simp [runAll]; omega, ?_⟩
  cases hv : validateConfig a.cfg with
  | error e => simp [runUser, hv]
  | ok u =>
    cases hl : a.loginResult with
    | error cause => simp [runUser, hv, hl]
    | ok tok => simp [runUser, hv, hl]

/-- C9: the in-memory event log is append-only.  Every operation of the
program preserves all previously appended entries in place and in order
(the old log is the initial segment of the new one), and `record` appends
exactly one entry at the end.  In particular `flush` never mutates,
reorders or removes an entry. -/
theorem C9_append_only (op : LogOp) (st : FlushState) :
    (applyLogOp op st).logs.take st.logs.length = st.logs ∧
    st.logs.length ≤ (applyLogOp op st).logs.length ∧
    (∀ line, (applyLogOp (.record line) st).logs = st.logs ++ [line]) := by
  refine ⟨?_, ?_, fun line => by simp [applyLogOp]⟩
  · cases op with
    | record line => simp [applyLogOp, List.take_left]
    | flush t => simp [applyLogOp, saveLogs, List.take_left]
  · cases op with
    | record line => simp [applyLogOp]
    | flush t => simp [applyLogOp, saveLogs]

/-- C10: the start/stop decisions of the app.js market checker depend only
on the hours, minutes and seconds fields of the parsed start/stop times and
of the current market time — any two configurations differing only in
millisecond components yield identical decisions, since the compared totals
discard `ms`. -/
theorem C10_ms_discarded (start1 start2 stop1 stop2 cur1 cur2 : TimeOfDay)
    (active : Bool)
    (hstart : start1.hours = start2.hours ∧ start1.minutes = start2.minutes ∧
      start1.seconds = start2.seconds)
    (hstop : stop1.hours = stop2.hours ∧ stop1.minutes = stop2.minutes ∧
      stop1.seconds = stop2.seconds)
    (hcur : cur1.hours = cur2.hours ∧ cur1.minutes = cur2.minutes ∧
      cur1.seconds = cur2.seconds) :
    marketCheckerStep start1 stop1 cur1 active =
      marketCheckerStep start2 stop2 cur2 active := by
  obtain ⟨a1, a2, a3⟩ := hstart
  obtain ⟨b1, b2, b3⟩ := hstop
  obtain ⟨c1, c2, c3⟩ := hcur
  simp [marketCheckerStep, secondsTotal, a1, a2, a3, b1, b2, b3, c1, c2, c3]

/-- Witness for C10: start 10:00:00 / stop 10:00:05 / current 10:00:03 with
two different millisecond assignments give identical market-checker
decisions. -/
theorem C10_ms_discarded_witness :
    marketCheckerStep ⟨10, 0, 0, 0⟩ ⟨10, 0, 5, 0⟩ ⟨10, 0, 3, 123⟩ false =
      marketCheckerStep ⟨10, 0, 0, 999⟩ ⟨10, 0, 5, 500⟩ ⟨10, 0, 3, 7⟩ false :=
  C10_ms_discarded ⟨10, 0, 0, 0⟩ ⟨10, 0, 0, 999⟩ ⟨10, 0, 5, 0⟩ ⟨10, 0, 5, 500⟩
    ⟨10, 0, 3, 123⟩ ⟨10, 0, 3, 7⟩ false ⟨rfl, rfl, rfl⟩ ⟨rfl, rfl, rfl⟩ ⟨rfl, rfl, rfl⟩

end HftFlash
